import Mathlib

/-!
Verification of the MYCELIUM Ecological Signal Translation Engine:
a shallow embedding in Lean 4 of the two stateful translators
(`WaterStressTranslator`, `BiodiversityTranslator`) from
`src/translators/`, with numeric values modelled as rationals.
The Python float exponentiation `x ** e` (used only with the exponents
0.7 and 1.5, whose exact values are irrational) is abstracted as an
explicit parameter `rpow : ℚ → ℚ → ℚ`; every theorem below holds for
an arbitrary such function, so no conclusion depends on how the
power is computed.
-/

namespace Mycelium

/-- The two error kinds raised by the translators (`ValueError` in the
source, distinguished by message). -/
inductive TranslationError where
  | unknownEcosystemType : String → TranslationError
  | missingSensorData : TranslationError
  deriving DecidableEq

/-- The optional `trend` sub-record attached by `translate`. -/
structure Trend where
  direction : String
  magnitude : ℚ
  deriving DecidableEq

/-- Python `int()` applied to a rational: truncation toward zero. -/
def pyInt (q : ℚ) : ℤ :=
  if q < 0 then -⌊-q⌋ else ⌊q⌋

/-- Python `timestamp or now`: `now` when the value is absent or falsy (0). -/
def pyOr (t : Option ℚ) (now : ℚ) : ℚ :=
  match t with
  | some v => if v = 0 then now else v
  | none => now

namespace WaterStressTranslator

/-- One entry of `ecosystem_moisture_ranges`. -/
structure MoistureRange where
  optimal_low : ℚ
  optimal_high : ℚ
  stress_threshold : ℚ
  saturation_threshold : ℚ
  deriving DecidableEq

/-- The `ecosystem_moisture_ranges` table from `__init__`. -/
def ecosystem_moisture_ranges (ecosystem_type : String) : Option MoistureRange :=
  if ecosystem_type = "temperate_forest" then some ⟨30, 45, 25, 55⟩
  else if ecosystem_type = "grassland" then some ⟨20, 35, 15, 45⟩
  else if ecosystem_type = "desert_scrub" then some ⟨8, 20, 5, 30⟩
  else if ecosystem_type = "wetland" then some ⟨60, 85, 50, 95⟩
  else if ecosystem_type = "rainforest" then some ⟨50, 70, 45, 80⟩
  else none

/-- Calibration constants from `__init__`. -/
def max_intensity : ℚ := 10
def base_intensity : ℚ := 2
def pulse_duration : ℚ := 8/10

/-- The optional keys of the `additional_indicators` dict; `none` means
the key is absent. -/
structure WaterIndicators where
  leaf_water_potential : Option ℚ
  stream_flow : Option ℚ
  water_table_depth : Option ℚ
  normal_water_table_depth : Option ℚ
  precipitation_deficit : Option ℚ
  deriving DecidableEq

/-- The `if additional_indicators:` block of `analyze_water_stress`
(lines 82-108): the four secondary-indicator adjustments applied
sequentially to `stress_level`, each clamped to 1. An absent or empty
dict (`none`, falsy in Python) skips the whole block. -/
def apply_indicators (additional_indicators : Option WaterIndicators)
    (stress_level : ℚ) : ℚ :=
  match additional_indicators with
  | none => stress_level
  | some ind =>
    let s := stress_level
    let s :=
      match ind.leaf_water_potential with
      | some lp =>
        if lp < -2 then min 1 (s + 2/10)
        else if lp < -(3/2) then min 1 (s + 1/10)
        else s
      | none => s
    let s :=
      match ind.stream_flow with
      | some sf => if sf < 1/2 then min 1 (s * (13/10)) else s
      | none => s
    let s :=
      match ind.water_table_depth with
      | some wt =>
        if wt > (ind.normal_water_table_depth.getD 0) * (3/2)
        then min 1 (s + 15/100) else s
      | none => s
    let s :=
      match ind.precipitation_deficit with
      | some pd => if pd > 30 then min 1 (s + (pd/100) * (2/10)) else s
      | none => s
    s

/-- `analyze_water_stress(soil_moisture, ecosystem_type,
additional_indicators)`: returns `(stress_level, is_saturated,
saturation_level)` or raises on an unknown ecosystem type.
`rpow` models Python float `**` (used here as `x ** 0.7`). -/
def analyze_water_stress (rpow : ℚ → ℚ → ℚ) (soil_moisture : ℚ)
    (ecosystem_type : String)
    (additional_indicators : Option WaterIndicators) :
    Except TranslationError (ℚ × Bool × ℚ) :=
  match ecosystem_moisture_ranges ecosystem_type with
  | none => .error (.unknownEcosystemType ecosystem_type)
  | some ranges =>
    let base :=
      if soil_moisture > ranges.saturation_threshold then
        (true,
         min 1 ((soil_moisture - ranges.saturation_threshold) /
           (100 - ranges.saturation_threshold)),
         (0 : ℚ))
      else if soil_moisture < ranges.optimal_low then
        let s :=
          if soil_moisture ≤ ranges.stress_threshold then
            let s0 := min 1 ((ranges.stress_threshold - soil_moisture) /
              ranges.stress_threshold)
            if s0 > 7/10 then min 1 (7/10 + rpow (s0 - 7/10) (7/10)) else s0
          else
            (ranges.optimal_low - soil_moisture) /
              (ranges.optimal_low - ranges.stress_threshold)
        (false, (0 : ℚ), s)
      else (false, (0 : ℚ), (0 : ℚ))
    let is_saturated := base.1
    let saturation_level := base.2.1
    let stress_level := apply_indicators additional_indicators base.2.2
    .ok (stress_level, is_saturated, saturation_level)

/-- The feedback-pattern dict returned by the water translator, with
the `trend` field (added later by `translate`) as an `Option`. -/
structure WaterPattern where
  type : String
  intensity : ℚ
  rhythm : String
  pulse_count : ℤ
  duration : ℚ
  frequency : String
  location : String
  description : String
  emotion : String
  trend : Option Trend
  deriving DecidableEq

/-- `generate_feedback_pattern(stress_level, is_saturated,
saturation_level, previous_stress)`. `rpow` models Python `**`
(used here as `x ** 1.5`). -/
def generate_feedback_pattern (rpow : ℚ → ℚ → ℚ) (stress_level : ℚ)
    (is_saturated : Bool) (saturation_level : ℚ)
    (previous_stress : Option ℚ) : WaterPattern :=
  let recovery :=
    match previous_stress with
    | some prev =>
      if stress_level < prev ∧ prev > 3/10 ∧ stress_level < 3/10 then
        let recovery_ratio := min 1 ((prev - stress_level) / prev)
        some { type := "recovery"
               intensity := base_intensity +
                 (max_intensity - base_intensity) * recovery_ratio * (4/10)
               rhythm := "slow_release"
               pulse_count := 3
               duration := pulse_duration * 2
               frequency := "medium_low"
               location := "whole_body"
               description := "A gentle release from tension to warmth, signaling ecosystem recovery"
               emotion := "relief"
               trend := none }
      else none
    | none => none
  match recovery with
  | some p => p
  | none =>
    if stress_level = 0 ∧ is_saturated = false then
      { type := "affirmation"
        intensity := base_intensity * (1/2)
        rhythm := "steady"
        pulse_count := 1
        duration := pulse_duration
        frequency := "low"
        location := "whole_body"
        description := "A gentle, affirming warmth indicating healthy water balance"
        emotion := "contentment"
        trend := none }
    else if is_saturated then
      { type := "pressure"
        intensity := base_intensity +
          (max_intensity - base_intensity) * rpow saturation_level (3/2)
        rhythm := "wave"
        pulse_count := 2
        duration := pulse_duration * (3/2)
        frequency := "low"
        location := "chest_and_limbs"
        description := "A slow, heavy pressure mimicking the feeling of waterlogged soil"
        emotion := "heaviness"
        trend := none }
    else
      { type := "tension"
        intensity := base_intensity +
          (max_intensity - base_intensity) * rpow stress_level (3/2)
        rhythm := if stress_level > 7/10 then "staccato" else "intermittent"
        pulse_count := max 2 (min 5 (pyInt (stress_level * 6)))
        duration := pulse_duration * (1 - stress_level * (1/2))
        frequency := "medium_high"
        location := "throat_and_chest"
        description := "A constricting sensation mimicking thirst, intensifying with drought severity"
        emotion := if stress_level < 1/2 then "concern" else "urgency"
        trend := none }

/-- The `previous_readings` instance attribute. -/
structure State where
  soil_moisture : Option ℚ
  stress_level : Option ℚ
  timestamp : Option ℚ
  deriving DecidableEq

/-- `previous_readings` as initialized in `__init__`. -/
def initial_state : State := ⟨none, none, none⟩

/-- The `sensor_data` dict passed to the water `translate`; `none`
models an absent key (`dict.get` returning `None`). -/
structure SensorData where
  soil_moisture : Option ℚ
  ecosystem_type : Option String
  additional_indicators : Option WaterIndicators
  deriving DecidableEq

/-- `translate(sensor_data, timestamp)` of `WaterStressTranslator`,
embedded as a state transformer: returns the raised error or the
feedback pattern, paired with the `previous_readings` state after the
call. `now` models `time.time()`. -/
def translate (rpow : ℚ → ℚ → ℚ) (st : State) (sensor_data : SensorData)
    (timestamp : Option ℚ) (now : ℚ) :
    Except TranslationError WaterPattern × State :=
  match sensor_data.soil_moisture, sensor_data.ecosystem_type with
  | some soil_moisture, some ecosystem_type =>
    let previous_stress := st.stress_level
    match analyze_water_stress rpow soil_moisture ecosystem_type
        sensor_data.additional_indicators with
    | .error e => (.error e, st)
    | .ok (stress_level, is_saturated, saturation_level) =>
      let feedback := generate_feedback_pattern rpow stress_level
        is_saturated saturation_level previous_stress
      let st' : State :=
        ⟨some soil_moisture, some stress_level, some (pyOr timestamp now)⟩
      let feedback :=
        match previous_stress with
        | some prev =>
          let trend := stress_level - prev
          if |trend| > 1/10 then
            let t : Trend :=
              ⟨if trend < 0 then "improving" else "worsening", |trend|⟩
            { feedback with trend := some t }
          else feedback
        | none => feedback
      (.ok feedback, st')
  | _, _ => (.error .missingSensorData, st)

end WaterStressTranslator

namespace BiodiversityTranslator

/-- One metric entry in `diversity_thresholds`. -/
structure MetricThreshold where
  optimal_low : ℚ
  optimal_high : ℚ
  low_threshold : ℚ
  deriving DecidableEq

/-- The per-ecosystem row of `diversity_thresholds`. -/
structure DiversityThresholds where
  species_count : MetricThreshold
  bird_species : MetricThreshold
  insect_orders : MetricThreshold
  shannon_index : MetricThreshold
  deriving DecidableEq

/-- The `diversity_thresholds` table from `__init__`. -/
def diversity_thresholds (ecosystem_type : String) :
    Option DiversityThresholds :=
  if ecosystem_type = "temperate_forest" then
    some ⟨⟨20, 50, 10⟩, ⟨15, 30, 8⟩, ⟨8, 12, 5⟩, ⟨5/2, 4, 2⟩⟩
  else if ecosystem_type = "grassland" then
    some ⟨⟨15, 40, 8⟩, ⟨10, 25, 6⟩, ⟨7, 10, 4⟩, ⟨2, 7/2, 3/2⟩⟩
  else if ecosystem_type = "wetland" then
    some ⟨⟨25, 60, 15⟩, ⟨20, 40, 12⟩, ⟨8, 12, 5⟩, ⟨14/5, 9/2, 11/5⟩⟩
  else if ecosystem_type = "desert_scrub" then
    some ⟨⟨10, 30, 5⟩, ⟨8, 20, 4⟩, ⟨5, 8, 3⟩, ⟨3/2, 3, 1⟩⟩
  else none

/-- Feedback calibration constants from `__init__`. -/
def max_complexity : ℚ := 10
def base_complexity : ℚ := 3

/-- The dict `biodiversity_data` built by `translate`: the sensor
mapping minus the `ecosystem_type` and `timestamp` keys. `other_keys`
lists any unrecognized keys, which count for the emptiness check but
contribute no depletion score. -/
structure BiodiversityData where
  species_count : Option ℚ
  bird_species : Option ℚ
  insect_orders : Option ℚ
  shannon_index : Option ℚ
  acoustic_diversity : Option ℚ
  other_keys : List String
  deriving DecidableEq

/-- Python `not biodiversity_data`: the filtered dict has no keys. -/
def BiodiversityData.isEmpty (d : BiodiversityData) : Bool :=
  d.species_count.isNone && d.bird_species.isNone &&
  d.insect_orders.isNone && d.shannon_index.isNone &&
  d.acoustic_diversity.isNone && d.other_keys.isEmpty

/-- The shared two-zone scoring shape used for each counted metric in
`analyze_biodiversity`: below `low_threshold` a clamped linear score
weighted by `w_below`, between `low_threshold` and `optimal_low` a
linear score weighted by `w_mid`, otherwise 0. -/
def metric_score (t : MetricThreshold) (count w_below w_mid : ℚ) : ℚ :=
  if count < t.low_threshold then
    min 1 ((t.low_threshold - count) / t.low_threshold) * w_below
  else if count < t.optimal_low then
    ((t.optimal_low - count) / (t.optimal_low - t.low_threshold)) * w_mid
  else 0

/-- `analyze_biodiversity(biodiversity_data, ecosystem_type)`: the
per-metric depletion scores collected in source order, averaged, with
the 0.5 default when no recognized metric is present. -/
def analyze_biodiversity (biodiversity_data : BiodiversityData)
    (ecosystem_type : String) : Except TranslationError ℚ :=
  match diversity_thresholds ecosystem_type with
  | none => .error (.unknownEcosystemType ecosystem_type)
  | some thresholds =>
    let depletion_scores : List ℚ :=
      (match biodiversity_data.species_count with
       | some c => [metric_score thresholds.species_count c (12/10) (8/10)]
       | none => []) ++
      (match biodiversity_data.bird_species with
       | some c => [metric_score thresholds.bird_species c 1 (7/10)]
       | none => []) ++
      (match biodiversity_data.insect_orders with
       | some c => [metric_score thresholds.insect_orders c (11/10) (8/10)]
       | none => []) ++
      (match biodiversity_data.shannon_index with
       | some c => [metric_score thresholds.shannon_index c (13/10) (9/10)]
       | none => []) ++
      (match biodiversity_data.acoustic_diversity with
       | some a => [max 0 (1 - a)]
       | none => [])
    if depletion_scores.isEmpty then .ok (1/2)
    else .ok (depletion_scores.sum / depletion_scores.length)

/-- The feedback-pattern dict returned by the biodiversity translator.
`frequency_range` is absent (`none`) in the `expanding_harmony`
branch, which does not set that key. -/
structure BioPattern where
  type : String
  complexity : ℚ
  rhythm : String
  layers : ℤ
  duration : ℚ
  frequency_range : Option String
  location : String
  description : String
  emotion : String
  trend : Option Trend
  deriving DecidableEq

/-- `generate_feedback_pattern(depletion_level, previous_depletion)`
of `BiodiversityTranslator`. -/
def generate_feedback_pattern (depletion_level : ℚ)
    (previous_depletion : Option ℚ) : BioPattern :=
  let recovery :=
    match previous_depletion with
    | some prev =>
      if depletion_level < prev ∧ prev > 3/10 then
        some { type := "expanding_harmony"
               complexity := base_complexity +
                 (max_complexity - base_complexity) * (1 - depletion_level)
               rhythm := "building"
               layers := max 2 (pyInt ((1 - depletion_level) * 8))
               duration := 4
               frequency_range := none
               location := "whole_body"
               description := "A gradually expanding sensation of harmony, like a forest awakening"
               emotion := "hope"
               trend := none }
      else none
    | none => none
  match recovery with
  | some p => p
  | none =>
    if depletion_level < 2/10 then
      { type := "harmony"
        complexity := max_complexity * (8/10)
        rhythm := "layered"
        layers := max 3 (pyInt ((1 - depletion_level) * 10))
        duration := 3
        frequency_range := some "full_spectrum"
        location := "whole_body"
        description := "A rich, expansive symphony of sensations, like standing in a vibrant ecosystem"
        emotion := "wonder"
        trend := none }
    else if depletion_level < 1/2 then
      { type := "simplified_harmony"
        complexity := max_complexity * (1/2)
        rhythm := "regular"
        layers := max 2 (pyInt ((1 - depletion_level) * 6))
        duration := 5/2
        frequency_range := some "limited"
        location := "torso_and_arms"
        description := "A pleasant but simplified pattern, like a garden with fewer species"
        emotion := "contentment"
        trend := none }
    else
      { type := "monotony"
        complexity := base_complexity +
          (max_complexity - base_complexity) * (1 - depletion_level)
        rhythm := "repetitive"
        layers := max 1 (pyInt ((1 - depletion_level) * 3))
        duration := 2
        frequency_range := some "narrow"
        location := "arms_only"
        description := "A sparse, monotonous pulse signaling ecological simplification"
        emotion := if depletion_level < 7/10 then "concern" else "alarm"
        trend := none }

/-- The `previous_readings` instance attribute. -/
structure State where
  depletion_level : Option ℚ
  timestamp : Option ℚ
  deriving DecidableEq

/-- `previous_readings` as initialized in `__init__`. -/
def initial_state : State := ⟨none, none⟩

/-- The `sensor_data` mapping passed to the biodiversity `translate`:
the recognized keys plus any unrecognized ones. A `timestamp` key, if
present, is filtered out with `ecosystem_type` before the emptiness
check. -/
structure SensorData where
  ecosystem_type : Option String
  timestamp_key : Option ℚ
  species_count : Option ℚ
  bird_species : Option ℚ
  insect_orders : Option ℚ
  shannon_index : Option ℚ
  acoustic_diversity : Option ℚ
  other_keys : List String
  deriving DecidableEq

/-- The dict comprehension in `translate` dropping `ecosystem_type`
and `timestamp`. -/
def SensorData.biodiversity_data (sd : SensorData) : BiodiversityData :=
  ⟨sd.species_count, sd.bird_species, sd.insect_orders,
   sd.shannon_index, sd.acoustic_diversity, sd.other_keys⟩

/-- `translate(sensor_data, timestamp)` of `BiodiversityTranslator`,
embedded as a state transformer (error or pattern, with the
`previous_readings` state after the call). -/
def translate (st : State) (sensor_data : SensorData)
    (timestamp : Option ℚ) (now : ℚ) :
    Except TranslationError BioPattern × State :=
  let biodiversity_data := sensor_data.biodiversity_data
  match sensor_data.ecosystem_type, biodiversity_data.isEmpty with
  | some ecosystem_type, false =>
    let previous_depletion := st.depletion_level
    match analyze_biodiversity biodiversity_data ecosystem_type with
    | .error e => (.error e, st)
    | .ok depletion_level =>
      let feedback := generate_feedback_pattern depletion_level
        previous_depletion
      let st' : State := ⟨some depletion_level, some (pyOr timestamp now)⟩
      let feedback :=
        match previous_depletion with
        | some prev =>
          let trend := depletion_level - prev
          if |trend| > 1/20 then
            let t : Trend :=
              ⟨if trend < 0 then "improving" else "worsening", |trend|⟩
            { feedback with trend := some t }
          else feedback
        | none => feedback
      (.ok feedback, st')
  | _, _ => (.error .missingSensorData, st)

end BiodiversityTranslator

/-- A concrete instantiation of the abstract power parameter, used in
closed evaluations whose exercised branches and asserted fields do not
depend on how the power is computed. -/
def rpow0 : ℚ → ℚ → ℚ := fun _ _ => 0

/-- Rounding a rational to the nearest integer (half rounds up): the
reading of round in the pulse-count sentence of the specification. -/
def specRound (q : ℚ) : ℤ := ⌊q + 1/2⌋

/-- The `trend` field of every pattern fresh out of the water
`generate_feedback_pattern` is absent; `translate` alone attaches it. -/
theorem water_generate_trend_none (rpow : ℚ → ℚ → ℚ) (stress_level : ℚ)
    (is_saturated : Bool) (saturation_level : ℚ)
    (previous_stress : Option ℚ) :
    (WaterStressTranslator.generate_feedback_pattern rpow stress_level
      is_saturated saturation_level previous_stress).trend = none := by
  unfold WaterStressTranslator.generate_feedback_pattern
  cases previous_stress with
  | none =>
    dsimp only
    split <;> first | rfl | (split <;> rfl)
  | some prev =>
    dsimp only
    split
    · rename_i p heq
      split at heq
      · injection heq with h
        rw [← h]
      · exact Option.noConfusion heq
    · split <;> first | rfl | (split <;> rfl)

/-- The `trend` field of every pattern fresh out of the biodiversity
`generate_feedback_pattern` is absent; `translate` alone attaches it. -/
theorem bio_generate_trend_none (depletion_level : ℚ)
    (previous_depletion : Option ℚ) :
    (BiodiversityTranslator.generate_feedback_pattern depletion_level
      previous_depletion).trend = none := by
  unfold BiodiversityTranslator.generate_feedback_pattern
  cases previous_depletion with
  | none =>
    dsimp only
    split <;> first | rfl | (split <;> rfl)
  | some prev =>
    dsimp only
    split
    · rename_i p heq
      split at heq
      · injection heq with h
        rw [← h]
      · exact Option.noConfusion heq
    · split <;> first | rfl | (split <;> rfl)

/-- Claim C1, counterexample: with soil moisture 60 in a temperate
forest (saturation threshold 55) and the single secondary indicator
leaf_water_potential = -2.5, `analyze_water_stress` reports
is_saturated = true yet stress_level = 1/5 ≠ 0 — the
secondary-indicator adjustments are applied even when saturated,
refuting the claimed stress_level = 0. -/
theorem C1_counterexample :
    WaterStressTranslator.analyze_water_stress rpow0 60 "temperate_forest"
      (some ⟨some (-(5/2)), none, none, none, none⟩) =
      .ok (1/5, true, 1/9) ∧ (1/5 : ℚ) ≠ 0 := by
  refine ⟨?_, by norm_num⟩
  norm_num +decide [WaterStressTranslator.analyze_water_stress,
    WaterStressTranslator.ecosystem_moisture_ranges,
    WaterStressTranslator.apply_indicators]

/-- Claim C1, amended: whenever soil_moisture exceeds the configured
saturation_threshold, `analyze_water_stress` reports is_saturated =
true with saturation_level = clamp((soil_moisture -
saturation_threshold) / (100 - saturation_threshold), 0, 1), and its
stress_level is the secondary-indicator adjustments applied to the
base 0 — the drought branch is skipped but the adjustments still run,
so stress_level is 0 only when no additional_indicators are given. -/
theorem C1_amended (rpow : ℚ → ℚ → ℚ) (soil_moisture : ℚ) (et : String)
    (ranges : WaterStressTranslator.MoistureRange)
    (ind : Option WaterStressTranslator.WaterIndicators)
    (hr : WaterStressTranslator.ecosystem_moisture_ranges et = some ranges)
    (hs : soil_moisture > ranges.saturation_threshold) :
    WaterStressTranslator.analyze_water_stress rpow soil_moisture et ind =
      .ok (WaterStressTranslator.apply_indicators ind 0, true,
        max 0 (min 1 ((soil_moisture - ranges.saturation_threshold) /
          (100 - ranges.saturation_threshold)))) ∧
    WaterStressTranslator.apply_indicators none 0 = 0 := by
  have hden : (0 : ℚ) < 100 - ranges.saturation_threshold := by
    unfold WaterStressTranslator.ecosystem_moisture_ranges at hr
    split_ifs at hr <;> injection hr with h <;> rw [← h] <;> norm_num
  have hx : 0 < (soil_moisture - ranges.saturation_threshold) /
      (100 - ranges.saturation_threshold) :=
    div_pos (by linarith) hden
  have hclamp : max 0 (min 1 ((soil_moisture - ranges.saturation_threshold) /
      (100 - ranges.saturation_threshold))) =
      min 1 ((soil_moisture - ranges.saturation_threshold) /
      (100 - ranges.saturation_threshold)) :=
    max_eq_right (le_min zero_le_one hx.le)
  refine ⟨?_, rfl⟩
  unfold WaterStressTranslator.analyze_water_stress
  rw [hr, hclamp]
  dsimp only
  rw [if_pos hs]

/-- Claim C1, amended, witness at soil_moisture 60 in temperate_forest
with leaf_water_potential -2.5. -/
theorem C1_amended_witness :
    WaterStressTranslator.ecosystem_moisture_ranges "temperate_forest" =
      some ⟨30, 45, 25, 55⟩ ∧
    (60 : ℚ) >
      (⟨30, 45, 25, 55⟩ :
        WaterStressTranslator.MoistureRange).saturation_threshold ∧
    (WaterStressTranslator.analyze_water_stress rpow0 60 "temperate_forest"
        (some ⟨some (-(5/2)), none, none, none, none⟩) =
      .ok (WaterStressTranslator.apply_indicators
          (some ⟨some (-(5/2)), none, none, none, none⟩) 0, true,
        max 0 (min 1 ((60 -
            (⟨30, 45, 25, 55⟩ :
              WaterStressTranslator.MoistureRange).saturation_threshold) /
          (100 -
            (⟨30, 45, 25, 55⟩ :
              WaterStressTranslator.MoistureRange).saturation_threshold)))) ∧
      WaterStressTranslator.apply_indicators none 0 = 0) :=
  ⟨by norm_num [WaterStressTranslator.ecosystem_moisture_ranges],
   by norm_num,
   C1_amended rpow0 60 "temperate_forest" ⟨30, 45, 25, 55⟩
     (some ⟨some (-(5/2)), none, none, none, none⟩)
     (by norm_num [WaterStressTranslator.ecosystem_moisture_ranges])
     (by norm_num)⟩

/-- Claim C2 at the failing input: for temperate_forest with
species_count = 0 (a valid non-negative count),
`analyze_biodiversity` returns depletion_level = 6/5, which exceeds 1
— the 1.2 weight is applied after the clamp, contradicting the
documented [0,1] range. -/
theorem C2_depletion_exceeds_one :
    BiodiversityTranslator.analyze_biodiversity
      ⟨some 0, none, none, none, none, []⟩ "temperate_forest" =
      .ok (6/5) ∧ ¬ ((6/5 : ℚ) ≤ 1) := by
  refine ⟨?_, by norm_num⟩
  norm_num +decide [BiodiversityTranslator.analyze_biodiversity,
    BiodiversityTranslator.diversity_thresholds,
    BiodiversityTranslator.metric_score]

/-- Claim C3, counterexample: at stress_level = 0.49 the tension
branch of the water `generate_feedback_pattern` yields pulse_count 2
(the source truncates 0.49 × 6 = 2.94 with int()), while the claimed
formula clamp(round(stress_level × 6), 2, 5) yields 3. -/
theorem C3_counterexample :
    (WaterStressTranslator.generate_feedback_pattern rpow0 (49/100)
      false 0 none).pulse_count = 2 ∧
    max 2 (min 5 (specRound ((49/100) * 6))) = 3 := by
  constructor
  · norm_num +decide [WaterStressTranslator.generate_feedback_pattern, pyInt]
  · norm_num [specRound]

/-- Claim C3, amended: in the tension (default) branch the pulse count
is stress_level × 6 truncated toward zero (Python int(), equal to the
floor for the nonnegative stress values), then clamped to [2, 5] — not
rounded to the nearest integer as claimed. -/
theorem C3_amended (rpow : ℚ → ℚ → ℚ) (stress_level : ℚ)
    (h0 : 0 ≤ stress_level) (hne : stress_level ≠ 0) :
    (WaterStressTranslator.generate_feedback_pattern rpow stress_level
      false 0 none).pulse_count = max 2 (min 5 ⌊stress_level * 6⌋) := by
  unfold WaterStressTranslator.generate_feedback_pattern
  dsimp only
  rw [if_neg (by simp [hne])]
  rw [if_neg (by simp)]
  unfold pyInt
  rw [if_neg (not_lt.mpr (mul_nonneg h0 (by norm_num)))]

/-- Claim C3, amended, witness at stress_level 0.49, where the
truncated count is 2. -/
theorem C3_amended_witness :
    (0 : ℚ) ≤ 49/100 ∧ (49/100 : ℚ) ≠ 0 ∧
    (WaterStressTranslator.generate_feedback_pattern rpow0 (49/100)
      false 0 none).pulse_count = max 2 (min 5 ⌊(49/100 : ℚ) * 6⌋) :=
  ⟨by norm_num, by norm_num,
   C3_amended rpow0 (49/100) (by norm_num) (by norm_num)⟩

/-- Claim C6: with previous stress_level 0.5 and no saturation, a new
stress_level of 0.25 produces a recovery pattern, while 0.31 fails the
stress_level < 0.3 gate and produces a tension pattern. -/
theorem C6_recovery_gate :
    (WaterStressTranslator.generate_feedback_pattern rpow0 (1/4)
      false 0 (some (1/2))).type = "recovery" ∧
    (WaterStressTranslator.generate_feedback_pattern rpow0 (31/100)
      false 0 (some (1/2))).type = "tension" := by
  constructor <;>
    norm_num +decide [WaterStressTranslator.generate_feedback_pattern]

/-- Claim C7: for soil_moisture 18 in temperate_forest with
leaf_water_potential -1.8, stream_flow 0.3 and precipitation_deficit
25, the stress chain is base 7/25 = 0.28, plus 0.1 = 0.38, times 1.3
= 0.494 exactly, the deficit 25 ≤ 30 adds nothing, is_saturated is
false, and the resulting first-call pattern is tension, intermittent,
2 pulses, emotion concern. -/
theorem C7_concrete_scenario :
    WaterStressTranslator.analyze_water_stress rpow0 18 "temperate_forest"
      (some ⟨some (-(9/5)), some (3/10), none, none, some 25⟩) =
      .ok (247/500, false, 0) ∧
    (247 : ℚ)/500 = ((25 - 18)/25 + 1/10) * (13/10) ∧
    (WaterStressTranslator.generate_feedback_pattern rpow0 (247/500)
      false 0 none).type = "tension" ∧
    (WaterStressTranslator.generate_feedback_pattern rpow0 (247/500)
      false 0 none).rhythm = "intermittent" ∧
    (WaterStressTranslator.generate_feedback_pattern rpow0 (247/500)
      false 0 none).pulse_count = 2 ∧
    (WaterStressTranslator.generate_feedback_pattern rpow0 (247/500)
      false 0 none).emotion = "concern" := by
  refine ⟨?_, by norm_num, ?_, ?_, ?_, ?_⟩
  · norm_num +decide [WaterStressTranslator.analyze_water_stress,
      WaterStressTranslator.ecosystem_moisture_ranges,
      WaterStressTranslator.apply_indicators]
  all_goals
    norm_num +decide [WaterStressTranslator.generate_feedback_pattern, pyInt]

/-- Claim C10: a first biodiversity `translate` call whose sensor
mapping holds ecosystem_type grassland plus only the unrecognized key
canopy_cover does not fail: it computes the default depletion_level
1/2, which lands in the monotony branch with emotion concern. -/
theorem C10_unrecognized_keys_default :
    (BiodiversityTranslator.translate BiodiversityTranslator.initial_state
        ⟨some "grassland", none, none, none, none, none, none,
          ["canopy_cover"]⟩ none 0).1.map
      (fun p => (p.type, p.emotion)) = .ok ("monotony", "concern") ∧
    BiodiversityTranslator.analyze_biodiversity
      ⟨none, none, none, none, none, ["canopy_cover"]⟩ "grassland" =
      .ok (1/2) := by
  constructor <;>
    norm_num +decide [BiodiversityTranslator.translate,
      BiodiversityTranslator.initial_state,
      BiodiversityTranslator.SensorData.biodiversity_data,
      BiodiversityTranslator.BiodiversityData.isEmpty,
      BiodiversityTranslator.analyze_biodiversity,
      BiodiversityTranslator.diversity_thresholds,
      BiodiversityTranslator.generate_feedback_pattern, Except.map]

/-- Claim C4: for both translators a successful translate call carries
a trend sub-record exactly when a previous severity was stored and the
absolute change exceeds the threshold (0.1 water, 0.05 biodiversity);
on a first call (no stored severity) the trend is absent; when present
its direction is improving for a decrease, worsening for an increase,
and its magnitude is the absolute delta. -/
theorem C4_trend_presence (rpow : ℚ → ℚ → ℚ)
    (wst : WaterStressTranslator.State)
    (wsd : WaterStressTranslator.SensorData)
    (bst : BiodiversityTranslator.State)
    (bsd : BiodiversityTranslator.SensorData) (ts : Option ℚ) (now : ℚ) :
    (∀ pat st,
      WaterStressTranslator.translate rpow wst wsd ts now = (.ok pat, st) →
      (wst.stress_level = none → pat.trend = none) ∧
      (∀ prev s, wst.stress_level = some prev → st.stress_level = some s →
        pat.trend =
          if |s - prev| > 1/10 then
            some ⟨if s < prev then "improving" else "worsening", |s - prev|⟩
          else none)) ∧
    (∀ pat st,
      BiodiversityTranslator.translate bst bsd ts now = (.ok pat, st) →
      (bst.depletion_level = none → pat.trend = none) ∧
      (∀ prev s, bst.depletion_level = some prev →
        st.depletion_level = some s →
        pat.trend =
          if |s - prev| > 1/20 then
            some ⟨if s < prev then "improving" else "worsening", |s - prev|⟩
          else none)) := by
  constructor
  · intro pat st h
    unfold WaterStressTranslator.translate at h
    split at h
    · rename_i sm et
      split at h
      · exact absurd (congrArg Prod.fst h) (by simp)
      · rename_i triple s sat sl heq
        rw [Prod.mk.injEq] at h
        obtain ⟨h1, h2⟩ := h
        injection h1 with hpat
        constructor
        · intro hnone
          rw [← hpat, hnone]
          exact water_generate_trend_none rpow s sat sl none
        · intro prev s2 hprev hs2
          rw [← h2] at hs2
          dsimp only at hs2
          injection hs2 with hss
          subst hss
          rw [← hpat, hprev]
          dsimp only
          simp only [sub_neg]
          split_ifs with htr hdir
          · rfl
          · rfl
          · exact water_generate_trend_none rpow s sat sl (some prev)
    · exact absurd (congrArg Prod.fst h) (by simp)
  · intro pat st h
    unfold BiodiversityTranslator.translate at h
    dsimp only at h
    split at h
    · rename_i et hemp
      split at h
      · exact absurd (congrArg Prod.fst h) (by simp)
      · rename_i d heq
        rw [Prod.mk.injEq] at h
        obtain ⟨h1, h2⟩ := h
        injection h1 with hpat
        constructor
        · intro hnone
          rw [← hpat, hnone]
          exact bio_generate_trend_none d none
        · intro prev s2 hprev hs2
          rw [← h2] at hs2
          dsimp only at hs2
          injection hs2 with hss
          subst hss
          rw [← hpat, hprev]
          dsimp only
          simp only [sub_neg]
          split_ifs with htr hdir
          · rfl
          · rfl
          · exact bio_generate_trend_none d (some prev)
    · exact absurd (congrArg Prod.fst h) (by simp)


/-- Claim C5: any failing translate call (missing required sensor keys
or unknown ecosystem type) on either translator leaves the stored
previous_readings exactly as they were before the call. -/
theorem C5_no_mutation_on_failure (rpow : ℚ → ℚ → ℚ)
    (wst : WaterStressTranslator.State)
    (wsd : WaterStressTranslator.SensorData)
    (bst : BiodiversityTranslator.State)
    (bsd : BiodiversityTranslator.SensorData) (ts : Option ℚ) (now : ℚ) :
    (∀ e, (WaterStressTranslator.translate rpow wst wsd ts now).1 = .error e →
      (WaterStressTranslator.translate rpow wst wsd ts now).2 = wst) ∧
    (∀ e, (BiodiversityTranslator.translate bst bsd ts now).1 = .error e →
      (BiodiversityTranslator.translate bst bsd ts now).2 = bst) := by
  constructor
  · intro e he
    rcases hT : WaterStressTranslator.translate rpow wst wsd ts now with ⟨r, st2⟩
    rw [hT] at he
    dsimp only at he ⊢
    unfold WaterStressTranslator.translate at hT
    split at hT
    · split at hT
      · exact (congrArg Prod.snd hT).symm
      · rw [Prod.mk.injEq] at hT
        rw [← hT.1] at he
        exact absurd he (by simp)
    · exact (congrArg Prod.snd hT).symm
  · intro e he
    rcases hT : BiodiversityTranslator.translate bst bsd ts now with ⟨r, st2⟩
    rw [hT] at he
    dsimp only at he ⊢
    unfold BiodiversityTranslator.translate at hT
    dsimp only at hT
    split at hT
    · split at hT
      · exact (congrArg Prod.snd hT).symm
      · rw [Prod.mk.injEq] at hT
        rw [← hT.1] at he
        exact absurd he (by simp)
    · exact (congrArg Prod.snd hT).symm

/-- Claim C8: translate is deterministic in the input and the stored
previous severity: two instances holding the same previous
stress_level (resp. depletion_level), given the same sensor_data and
timestamp, return identical feedback patterns. -/
theorem C8_determinism (rpow : ℚ → ℚ → ℚ)
    (wst1 wst2 : WaterStressTranslator.State)
    (wsd : WaterStressTranslator.SensorData)
    (bst1 bst2 : BiodiversityTranslator.State)
    (bsd : BiodiversityTranslator.SensorData) (ts : Option ℚ) (now : ℚ)
    (hw : wst1.stress_level = wst2.stress_level)
    (hb : bst1.depletion_level = bst2.depletion_level) :
    (WaterStressTranslator.translate rpow wst1 wsd ts now).1 =
      (WaterStressTranslator.translate rpow wst2 wsd ts now).1 ∧
    (BiodiversityTranslator.translate bst1 bsd ts now).1 =
      (BiodiversityTranslator.translate bst2 bsd ts now).1 := by
  constructor
  · unfold WaterStressTranslator.translate
    cases hsm : wsd.soil_moisture with
    | none => rfl
    | some sm =>
      cases het : wsd.ecosystem_type with
      | none => rfl
      | some et =>
        dsimp only
        cases han : WaterStressTranslator.analyze_water_stress rpow sm et
            wsd.additional_indicators with
        | error e => rfl
        | ok r =>
          obtain ⟨s, sat, sl⟩ := r
          dsimp only
          rw [hw]
  · unfold BiodiversityTranslator.translate
    dsimp only
    split
    · split
      · rfl
      · dsimp only
        rw [hb]
    · rfl


/-- Claim C9, counterexample: a water sensor mapping whose
ecosystem_type mars is not configured but whose soil_moisture key is
absent fails with MissingSensorData, not UnknownEcosystemType — the
required-key check precedes the configuration lookup, refuting the
claim for sensor data that also miss a required key. -/
theorem C9_counterexample :
    (WaterStressTranslator.translate rpow0 WaterStressTranslator.initial_state
        ⟨none, some "mars", none⟩ none 0).1 =
      .error .missingSensorData ∧
    WaterStressTranslator.ecosystem_moisture_ranges "mars" = none ∧
    TranslationError.missingSensorData ≠
      TranslationError.unknownEcosystemType "mars" := by
  refine ⟨rfl, ?_, fun h => TranslationError.noConfusion h⟩
  norm_num +decide [WaterStressTranslator.ecosystem_moisture_ranges]

/-- Claim C9, amended: when the required keys are present (water:
soil_moisture and ecosystem_type; biodiversity: ecosystem_type plus a
nonempty metric mapping) and the ecosystem_type is not configured,
translate fails with UnknownEcosystemType on both translators and
never returns a pattern. -/
theorem C9_amended (rpow : ℚ → ℚ → ℚ) (wst : WaterStressTranslator.State)
    (soil_moisture : ℚ) (et : String)
    (ind : Option WaterStressTranslator.WaterIndicators)
    (bst : BiodiversityTranslator.State)
    (bsd : BiodiversityTranslator.SensorData) (ts : Option ℚ) (now : ℚ)
    (hwu : WaterStressTranslator.ecosystem_moisture_ranges et = none)
    (hbu : BiodiversityTranslator.diversity_thresholds et = none)
    (hbe : bsd.ecosystem_type = some et)
    (hbn : bsd.biodiversity_data.isEmpty = false) :
    (WaterStressTranslator.translate rpow wst
        ⟨some soil_moisture, some et, ind⟩ ts now).1 =
      .error (.unknownEcosystemType et) ∧
    (BiodiversityTranslator.translate bst bsd ts now).1 =
      .error (.unknownEcosystemType et) := by
  constructor
  · unfold WaterStressTranslator.translate
    dsimp only
    unfold WaterStressTranslator.analyze_water_stress
    rw [hwu]
  · unfold BiodiversityTranslator.translate
    dsimp only
    rw [hbe, hbn]
    dsimp only
    unfold BiodiversityTranslator.analyze_biodiversity
    rw [hbu]

/-- Claim C9, amended, witness at the unconfigured ecosystem_type
mars with the required keys present. -/
theorem C9_amended_witness :
    WaterStressTranslator.ecosystem_moisture_ranges "mars" = none ∧
    BiodiversityTranslator.diversity_thresholds "mars" = none ∧
    (⟨some "mars", none, some 5, none, none, none, none, []⟩ :
      BiodiversityTranslator.SensorData).ecosystem_type = some "mars" ∧
    (⟨some "mars", none, some 5, none, none, none, none, []⟩ :
      BiodiversityTranslator.SensorData).biodiversity_data.isEmpty = false ∧
    ((WaterStressTranslator.translate rpow0 WaterStressTranslator.initial_state
        ⟨some 10, some "mars", none⟩ none 0).1 =
      .error (.unknownEcosystemType "mars") ∧
    (BiodiversityTranslator.translate BiodiversityTranslator.initial_state
        ⟨some "mars", none, some 5, none, none, none, none, []⟩ none 0).1 =
      .error (.unknownEcosystemType "mars")) :=
  ⟨by norm_num +decide [WaterStressTranslator.ecosystem_moisture_ranges],
   by norm_num +decide [BiodiversityTranslator.diversity_thresholds],
   rfl, rfl,
   C9_amended rpow0 WaterStressTranslator.initial_state 10 "mars" none
     BiodiversityTranslator.initial_state
     ⟨some "mars", none, some 5, none, none, none, none, []⟩ none 0
     (by norm_num +decide [WaterStressTranslator.ecosystem_moisture_ranges])
     (by norm_num +decide [BiodiversityTranslator.diversity_thresholds])
     rfl rfl⟩

/-- Claim C5, witness: a water call with both required keys missing
and a biodiversity call with an empty metric mapping both fail and
leave the stored readings exactly as they were. -/
theorem C5_no_mutation_on_failure_witness :
    (WaterStressTranslator.translate rpow0 ⟨some 18, some (7/25), some 5⟩
        ⟨none, none, none⟩ none 0).1 = .error .missingSensorData ∧
    (WaterStressTranslator.translate rpow0 ⟨some 18, some (7/25), some 5⟩
        ⟨none, none, none⟩ none 0).2 = ⟨some 18, some (7/25), some 5⟩ ∧
    (BiodiversityTranslator.translate ⟨some (1/4), some 5⟩
        ⟨some "wetland", none, none, none, none, none, none, []⟩ none 0).1 =
      .error .missingSensorData ∧
    (BiodiversityTranslator.translate ⟨some (1/4), some 5⟩
        ⟨some "wetland", none, none, none, none, none, none, []⟩ none 0).2 =
      ⟨some (1/4), some 5⟩ := by
  have h1 : (WaterStressTranslator.translate rpow0 ⟨some 18, some (7/25), some 5⟩
      ⟨none, none, none⟩ none 0).1 = .error .missingSensorData := rfl
  have h2 : (BiodiversityTranslator.translate ⟨some (1/4), some 5⟩
      ⟨some "wetland", none, none, none, none, none, none, []⟩ none 0).1 =
      .error .missingSensorData := rfl
  exact ⟨h1,
    (C5_no_mutation_on_failure rpow0 ⟨some 18, some (7/25), some 5⟩
      ⟨none, none, none⟩ ⟨some (1/4), some 5⟩
      ⟨some "wetland", none, none, none, none, none, none, []⟩ none 0).1 _ h1,
    h2,
    (C5_no_mutation_on_failure rpow0 ⟨some 18, some (7/25), some 5⟩
      ⟨none, none, none⟩ ⟨some (1/4), some 5⟩
      ⟨some "wetland", none, none, none, none, none, none, []⟩ none 0).2 _ h2⟩

/-- Claim C8, witness: two water states sharing stress_level 0.5 but
differing in stored soil_moisture and timestamp, and two biodiversity
states sharing depletion_level 0.25, produce identical outputs on the
same input. -/
theorem C8_determinism_witness :
    ((⟨some 18, some (1/2), some 0⟩ :
        WaterStressTranslator.State).stress_level =
      (⟨some 90, some (1/2), some 44⟩ :
        WaterStressTranslator.State).stress_level) ∧
    ((⟨some (1/4), some 0⟩ :
        BiodiversityTranslator.State).depletion_level =
      (⟨some (1/4), some 99⟩ :
        BiodiversityTranslator.State).depletion_level) ∧
    ((WaterStressTranslator.translate rpow0 ⟨some 18, some (1/2), some 0⟩
        ⟨some 18, some "grassland", none⟩ none 7).1 =
      (WaterStressTranslator.translate rpow0 ⟨some 90, some (1/2), some 44⟩
        ⟨some 18, some "grassland", none⟩ none 7).1 ∧
    (BiodiversityTranslator.translate ⟨some (1/4), some 0⟩
        ⟨some "wetland", none, some 20, none, none, none, none, []⟩ none 7).1 =
      (BiodiversityTranslator.translate ⟨some (1/4), some 99⟩
        ⟨some "wetland", none, some 20, none, none, none, none, []⟩ none 7).1) :=
  ⟨rfl, rfl,
   C8_determinism rpow0 ⟨some 18, some (1/2), some 0⟩
     ⟨some 90, some (1/2), some 44⟩ ⟨some 18, some "grassland", none⟩
     ⟨some (1/4), some 0⟩ ⟨some (1/4), some 99⟩
     ⟨some "wetland", none, some 20, none, none, none, none, []⟩
     none 7 rfl rfl⟩


end Mycelium
